import Mathlib

/-!
Verification of the calorie-expenditure prediction pipeline.

The pipeline under study is a sequence of notebook stages:
preprocessing (drop id, one-hot encode Sex, log1p the target),
feature engineering (BMI, Intensity, TempHeart, Duration2),
baseline modelling with 5-fold cross-validated RMSLE scoring,
submission writing (expm1 inverse transform, ids from the test set),
and weighted blending of two submission files (0.7 XGB + 0.3 LGBM).

Dataframe columns are modelled as lists; numeric cell values are
real numbers (rationals where only field arithmetic occurs, so that
concrete instances evaluate by `decide`).
-/

set_option autoImplicit false

namespace CaloriePipeline

/-! ### Elementary transforms (numpy log1p / expm1) -/

/-- `np.log1p x = log (1 + x)`, the forward target transform applied in
preprocessing (`train['Calories'] = np.log1p(train['Calories'])`). -/
noncomputable def log1p (x : ℝ) : ℝ := Real.log (1 + x)

/-- `np.expm1 x = exp x - 1`, the inverse transform applied to model output
before writing the submission (`test_preds = np.expm1(test_preds_log)`). -/
noncomputable def expm1 (x : ℝ) : ℝ := Real.exp x - 1

/-! ### Blending stage (blended_xgb70_lgb30.ipynb)

`blended_preds = 0.7 * xgb_df['Calories'] + 0.3 * lgb_df['Calories']` is
elementwise series arithmetic, modelled as `zipWith` over the two
prediction columns. -/

/-- The blended prediction column: `0.7 * xgb + 0.3 * lgb`, elementwise. -/
def blended_preds (xgb lgb : List ℚ) : List ℚ :=
  List.zipWith (fun a b => 0.7 * a + 0.3 * b) xgb lgb

theorem blended_preds_get (xgb lgb : List ℚ) (i : ℕ) (a b : ℚ)
    (ha : xgb.get? i = some a) (hb : lgb.get? i = some b) :
    (blended_preds xgb lgb).get? i = some (0.7 * a + 0.3 * b) := by
  rw [List.get?_eq_getElem?] at ha hb
  simp [blended_preds, List.getElem?_zipWith', ha, hb]

/-- C2: for every row present in both input prediction columns, the blended
prediction is the fixed convex combination `0.7 * pred_A + 0.3 * pred_B`;
the weights are constants, nonnegative, and sum to 1. -/
theorem blended_is_fixed_convex_combination (xgb lgb : List ℚ) (i : ℕ) (a b : ℚ)
    (ha : xgb.get? i = some a) (hb : lgb.get? i = some b) :
    (blended_preds xgb lgb).get? i = some (0.7 * a + 0.3 * b)
      ∧ (0.7 : ℚ) + 0.3 = 1 ∧ (0 : ℚ) ≤ 0.7 ∧ (0 : ℚ) ≤ 0.3 := by
  refine ⟨blended_preds_get xgb lgb i a b ha hb, by norm_num, by norm_num, by norm_num⟩

/-- Witness for C2 at the concrete columns `[1, 2]` and `[3, 4]`, row 0. -/
theorem blended_is_fixed_convex_combination_witness :
    (([(1 : ℚ), 2].get? 0 = some 1) ∧ ([(3 : ℚ), 4].get? 0 = some 3))
    ∧ ((blended_preds [(1 : ℚ), 2] [(3 : ℚ), 4]).get? 0 = some (0.7 * 1 + 0.3 * 3)
        ∧ (0.7 : ℚ) + 0.3 = 1 ∧ (0 : ℚ) ≤ 0.7 ∧ (0 : ℚ) ≤ 0.3) :=
  ⟨⟨by decide, by decide⟩,
    blended_is_fixed_convex_combination [1, 2] [3, 4] 0 1 3 (by decide) (by decide)⟩

/-- C3: the forward transform `log1p` followed by the inverse `expm1`
recovers every (nonnegative) calorie value exactly. -/
theorem expm1_log1p_roundtrip (x : ℝ) (h : 0 ≤ x) : expm1 (log1p x) = x := by
  unfold expm1 log1p
  rw [Real.exp_log (by linarith)]
  ring

/-- Witness for C3 at the calorie value 3. -/
theorem expm1_log1p_roundtrip_witness : (0 : ℝ) ≤ 3 ∧ expm1 (log1p 3) = 3 :=
  ⟨zero_le_three, expm1_log1p_roundtrip 3 zero_le_three⟩

/-- C10: each blended prediction lies between the two input predictions of
its row, and is nonnegative whenever both inputs are. -/
theorem blended_between_inputs (xgb lgb : List ℚ) (i : ℕ) (a b : ℚ)
    (ha : xgb.get? i = some a) (hb : lgb.get? i = some b) :
    ∃ c, (blended_preds xgb lgb).get? i = some c
      ∧ min a b ≤ c ∧ c ≤ max a b ∧ (0 ≤ a → 0 ≤ b → 0 ≤ c) := by
  refine ⟨0.7 * a + 0.3 * b, blended_preds_get xgb lgb i a b ha hb, ?_, ?_, ?_⟩
  · rcases le_total a b with hab | hab <;>
      simp only [min_eq_left, min_eq_right, hab] <;> linarith
  · rcases le_total a b with hab | hab <;>
      simp only [max_eq_right, max_eq_left, hab] <;> linarith
  · intro hA hB
    positivity

/-- Witness for C10 at the concrete columns `[1, 2]` and `[3, 4]`, row 1. -/
theorem blended_between_inputs_witness :
    (([(1 : ℚ), 2].get? 1 = some 2) ∧ ([(3 : ℚ), 4].get? 1 = some 4))
    ∧ ∃ c, (blended_preds [(1 : ℚ), 2] [(3 : ℚ), 4]).get? 1 = some c
        ∧ min (2 : ℚ) 4 ≤ c ∧ c ≤ max (2 : ℚ) 4 ∧ ((0 : ℚ) ≤ 2 → (0 : ℚ) ≤ 4 → 0 ≤ c) :=
  ⟨⟨by decide, by decide⟩,
    blended_between_inputs [1, 2] [3, 4] 1 2 4 (by decide) (by decide)⟩

/-! ### Data model: raw CSV rows (train.csv / test.csv)

`train.csv` columns: id, Sex, Age, Height, Weight, Duration, Heart_Rate,
Body_Temp, Calories; `test.csv` lacks the Calories target. -/

/-- The categorical Sex column. -/
inductive Sex where
  | female
  | male
deriving DecidableEq

/-- The category order pandas infers for the Sex column (lexicographic:
"female" before "male"); `drop_first=True` drops the head. -/
def sexCategories : List Sex := [Sex.female, Sex.male]

/-- The categories kept by `pd.get_dummies(·, columns=['Sex'], drop_first=True)`:
all but the first. -/
def sexDummyCats : List Sex := sexCategories.tail

/-- The name of the indicator column `get_dummies` creates for a category. -/
def sexColName : Sex → String
  | Sex.female => "Sex_female"
  | Sex.male => "Sex_male"

/-- The 0/1 indicator value of the dummy column for category `c` on a row
whose sex is `s`. -/
def sexIndicator (c s : Sex) : ℕ := if s = c then 1 else 0

/-- One row of the raw training data. -/
structure RawTrainRow where
  id : ℤ
  Sex : Sex
  Age : ℝ
  Height : ℝ
  Weight : ℝ
  Duration : ℝ
  Heart_Rate : ℝ
  Body_Temp : ℝ
  Calories : ℝ

/-- One row of the raw test data (no Calories target). -/
structure RawTestRow where
  id : ℤ
  Sex : Sex
  Age : ℝ
  Height : ℝ
  Weight : ℝ
  Duration : ℝ
  Heart_Rate : ℝ
  Body_Temp : ℝ

/-! ### Preprocessing stage (preprocessing_step2.ipynb)

Cells 2-4: drop the id column, one-hot encode Sex with `drop_first=True`,
and replace the target by `np.log1p` of itself.  `test_ids = test['id']`
is saved beforehand for submission building. -/

/-- One row of the preprocessed training data: id gone, Sex one-hot encoded
as Sex_male, the target log1p-transformed. -/
structure PrepTrainRow where
  Age : ℝ
  Height : ℝ
  Weight : ℝ
  Duration : ℝ
  Heart_Rate : ℝ
  Body_Temp : ℝ
  Calories : ℝ
  Sex_male : ℕ

/-- One row of the preprocessed test data (same transforms, no target). -/
structure PrepTestRow where
  Age : ℝ
  Height : ℝ
  Weight : ℝ
  Duration : ℝ
  Heart_Rate : ℝ
  Body_Temp : ℝ
  Sex_male : ℕ

/-- Preprocessing of one training row. -/
noncomputable def preprocessTrainRow (r : RawTrainRow) : PrepTrainRow :=
  { Age := r.Age, Height := r.Height, Weight := r.Weight, Duration := r.Duration,
    Heart_Rate := r.Heart_Rate, Body_Temp := r.Body_Temp,
    Calories := log1p r.Calories,
    Sex_male := sexIndicator Sex.male r.Sex }

/-- Preprocessing of one test row: identical feature transforms, no target. -/
def preprocessTestRow (r : RawTestRow) : PrepTestRow :=
  { Age := r.Age, Height := r.Height, Weight := r.Weight, Duration := r.Duration,
    Heart_Rate := r.Heart_Rate, Body_Temp := r.Body_Temp,
    Sex_male := sexIndicator Sex.male r.Sex }

/-- The whole preprocessed training dataset. -/
noncomputable def preprocessTrain (df : List RawTrainRow) : List PrepTrainRow :=
  df.map preprocessTrainRow

/-- The whole preprocessed test dataset. -/
def preprocessTest (df : List RawTestRow) : List PrepTestRow :=
  df.map preprocessTestRow

/-- `test_ids = test['id']`, extracted before the id column is dropped. -/
def test_ids (df : List RawTestRow) : List ℤ :=
  df.map RawTestRow.id

/-! Schema-level view of the same stage, to state column claims. -/

/-- Column names of the raw training data, in CSV order. -/
def rawTrainCols : List String :=
  ["id", "Sex", "Age", "Height", "Weight", "Duration", "Heart_Rate", "Body_Temp", "Calories"]

/-- Column names of the raw test data, in CSV order. -/
def rawTestCols : List String :=
  ["id", "Sex", "Age", "Height", "Weight", "Duration", "Heart_Rate", "Body_Temp"]

/-- `df.drop(columns=cs)` at schema level. -/
def dropCols (cs : List String) (df : List String) : List String :=
  df.filter (fun c => !cs.contains c)

/-- `pd.get_dummies(df, columns=['Sex'], drop_first=True)` at schema level:
the Sex column is removed and the kept categories' indicator columns are
appended at the end. -/
def getDummiesSexCols (df : List String) : List String :=
  df.filter (fun c => c != "Sex") ++ sexDummyCats.map sexColName

/-- Column names after preprocessing the training data. -/
def prepTrainCols : List String := getDummiesSexCols (dropCols ["id"] rawTrainCols)

/-- Column names after preprocessing the test data. -/
def prepTestCols : List String := getDummiesSexCols (dropCols ["id"] rawTestCols)

/-- C6: one-hot encoding of Sex yields exactly one indicator column,
`Sex_male`, in each of the train and test schemas, and on every row its
value is 0 or 1 — 1 exactly for male (so 0 for female). -/
theorem one_hot_sex_single_indicator :
    (sexDummyCats.map sexColName = ["Sex_male"]
      ∧ prepTrainCols.count "Sex_male" = 1 ∧ prepTestCols.count "Sex_male" = 1)
    ∧ (∀ r : RawTrainRow,
        (preprocessTrainRow r).Sex_male = 0 ∨ (preprocessTrainRow r).Sex_male = 1)
    ∧ (∀ r : RawTestRow,
        (preprocessTestRow r).Sex_male = 0 ∨ (preprocessTestRow r).Sex_male = 1)
    ∧ (∀ r : RawTrainRow, ((preprocessTrainRow r).Sex_male = 1 ↔ r.Sex = Sex.male))
    ∧ (∀ r : RawTestRow, ((preprocessTestRow r).Sex_male = 1 ↔ r.Sex = Sex.male)) := by
  refine ⟨⟨by decide, by decide, by decide⟩, ?_, ?_, ?_, ?_⟩ <;>
    intro r <;> cases h : r.Sex <;>
      simp [preprocessTrainRow, preprocessTestRow, sexIndicator, h]

/-- C7: preprocessing removes the id column from both schemas, replaces the
training target by `log1p` of the original calorie value, leaves every other
training feature unchanged, and transforms the test features identically —
the test schema is exactly the train schema minus the target. -/
theorem preprocessing_drops_id_and_logs_target :
    ("id" ∉ prepTrainCols ∧ "id" ∉ prepTestCols)
    ∧ (∀ r : RawTrainRow, (preprocessTrainRow r).Calories = log1p r.Calories)
    ∧ (∀ r : RawTrainRow,
        (preprocessTrainRow r).Age = r.Age
        ∧ (preprocessTrainRow r).Height = r.Height
        ∧ (preprocessTrainRow r).Weight = r.Weight
        ∧ (preprocessTrainRow r).Duration = r.Duration
        ∧ (preprocessTrainRow r).Heart_Rate = r.Heart_Rate
        ∧ (preprocessTrainRow r).Body_Temp = r.Body_Temp
        ∧ (preprocessTrainRow r).Sex_male = sexIndicator Sex.male r.Sex)
    ∧ (∀ r : RawTestRow,
        (preprocessTestRow r).Age = r.Age
        ∧ (preprocessTestRow r).Height = r.Height
        ∧ (preprocessTestRow r).Weight = r.Weight
        ∧ (preprocessTestRow r).Duration = r.Duration
        ∧ (preprocessTestRow r).Heart_Rate = r.Heart_Rate
        ∧ (preprocessTestRow r).Body_Temp = r.Body_Temp
        ∧ (preprocessTestRow r).Sex_male = sexIndicator Sex.male r.Sex)
    ∧ prepTestCols = prepTrainCols.filter (fun c => c != "Calories") :=
  ⟨⟨by decide, by decide⟩,
    fun _ => rfl,
    fun _ => ⟨rfl, rfl, rfl, rfl, rfl, rfl, rfl⟩,
    fun _ => ⟨rfl, rfl, rfl, rfl, rfl, rfl, rfl⟩,
    by decide⟩

/-! ### Feature-engineering stage (feature_engineering_step2b.ipynb)

Four derived columns are assigned one after another, on train and test
alike; pandas appends each new column at the end of the frame:
  BMI       = Weight / ((Height / 100) ** 2)
  Intensity = Heart_Rate / Duration
  TempHeart = Body_Temp * Heart_Rate
  Duration2 = Duration ** 2 -/

/-- A feature-engineered training row: the preprocessed fields plus the four
derived columns. -/
structure FETrainRow where
  Age : ℝ
  Height : ℝ
  Weight : ℝ
  Duration : ℝ
  Heart_Rate : ℝ
  Body_Temp : ℝ
  Calories : ℝ
  Sex_male : ℕ
  BMI : ℝ
  Intensity : ℝ
  TempHeart : ℝ
  Duration2 : ℝ

/-- A feature-engineered test row. -/
structure FETestRow where
  Age : ℝ
  Height : ℝ
  Weight : ℝ
  Duration : ℝ
  Heart_Rate : ℝ
  Body_Temp : ℝ
  Sex_male : ℕ
  BMI : ℝ
  Intensity : ℝ
  TempHeart : ℝ
  Duration2 : ℝ

/-- Feature engineering on one training row. -/
noncomputable def featureEngineerTrainRow (r : PrepTrainRow) : FETrainRow :=
  { Age := r.Age, Height := r.Height, Weight := r.Weight, Duration := r.Duration,
    Heart_Rate := r.Heart_Rate, Body_Temp := r.Body_Temp,
    Calories := r.Calories, Sex_male := r.Sex_male,
    BMI := r.Weight / ((r.Height / 100) ^ 2),
    Intensity := r.Heart_Rate / r.Duration,
    TempHeart := r.Body_Temp * r.Heart_Rate,
    Duration2 := r.Duration ^ 2 }

/-- Feature engineering on one test row. -/
noncomputable def featureEngineerTestRow (r : PrepTestRow) : FETestRow :=
  { Age := r.Age, Height := r.Height, Weight := r.Weight, Duration := r.Duration,
    Heart_Rate := r.Heart_Rate, Body_Temp := r.Body_Temp,
    Sex_male := r.Sex_male,
    BMI := r.Weight / ((r.Height / 100) ^ 2),
    Intensity := r.Heart_Rate / r.Duration,
    TempHeart := r.Body_Temp * r.Heart_Rate,
    Duration2 := r.Duration ^ 2 }

/-- The whole feature-engineered training dataset. -/
noncomputable def featureEngineerTrain (df : List PrepTrainRow) : List FETrainRow :=
  df.map featureEngineerTrainRow

/-- The whole feature-engineered test dataset. -/
noncomputable def featureEngineerTest (df : List PrepTestRow) : List FETestRow :=
  df.map featureEngineerTestRow

/-- Restriction of a feature-engineered training row to its pre-existing
columns. -/
def FETrainRow.toPrep (r : FETrainRow) : PrepTrainRow :=
  { Age := r.Age, Height := r.Height, Weight := r.Weight, Duration := r.Duration,
    Heart_Rate := r.Heart_Rate, Body_Temp := r.Body_Temp,
    Calories := r.Calories, Sex_male := r.Sex_male }

/-- Restriction of a feature-engineered test row to its pre-existing
columns. -/
def FETestRow.toPrep (r : FETestRow) : PrepTestRow :=
  { Age := r.Age, Height := r.Height, Weight := r.Weight, Duration := r.Duration,
    Heart_Rate := r.Heart_Rate, Body_Temp := r.Body_Temp,
    Sex_male := r.Sex_male }

/-- Column names after feature engineering the training data: the four new
columns are appended in assignment order. -/
def feTrainCols : List String :=
  prepTrainCols ++ ["BMI", "Intensity", "TempHeart", "Duration2"]

/-- Column names after feature engineering the test data. -/
def feTestCols : List String :=
  prepTestCols ++ ["BMI", "Intensity", "TempHeart", "Duration2"]

/-- C8: feature engineering adds exactly the four derived columns BMI,
Intensity, TempHeart and Duration2 (computed row-wise by the stated
formulas) to both train and test, and leaves every pre-existing column and
the row order unchanged. -/
theorem feature_engineering_adds_four_columns :
    (feTrainCols = prepTrainCols ++ ["BMI", "Intensity", "TempHeart", "Duration2"]
      ∧ feTestCols = prepTestCols ++ ["BMI", "Intensity", "TempHeart", "Duration2"])
    ∧ (∀ r : PrepTrainRow,
        (featureEngineerTrainRow r).BMI = r.Weight / ((r.Height / 100) ^ 2)
        ∧ (featureEngineerTrainRow r).Intensity = r.Heart_Rate / r.Duration
        ∧ (featureEngineerTrainRow r).TempHeart = r.Body_Temp * r.Heart_Rate
        ∧ (featureEngineerTrainRow r).Duration2 = r.Duration ^ 2)
    ∧ (∀ r : PrepTestRow,
        (featureEngineerTestRow r).BMI = r.Weight / ((r.Height / 100) ^ 2)
        ∧ (featureEngineerTestRow r).Intensity = r.Heart_Rate / r.Duration
        ∧ (featureEngineerTestRow r).TempHeart = r.Body_Temp * r.Heart_Rate
        ∧ (featureEngineerTestRow r).Duration2 = r.Duration ^ 2)
    ∧ (∀ df : List PrepTrainRow, (featureEngineerTrain df).map FETrainRow.toPrep = df)
    ∧ (∀ df : List PrepTestRow, (featureEngineerTest df).map FETestRow.toPrep = df) := by
  refine ⟨⟨rfl, rfl⟩, fun r => ⟨rfl, rfl, rfl, rfl⟩, fun r => ⟨rfl, rfl, rfl, rfl⟩, ?_, ?_⟩
  · intro df
    rw [featureEngineerTrain, List.map_map]
    exact List.map_id df
  · intro df
    rw [featureEngineerTest, List.map_map]
    exact List.map_id df

/-- C9: the unguarded divisions in feature engineering are genuine
quotients whenever Duration and Height are nonzero: on any train row and
any test row satisfying the precondition, Intensity · Duration recovers
Heart_Rate and BMI · (Height/100)² recovers Weight. -/
theorem fe_divisions_well_defined (r : PrepTrainRow) (s : PrepTestRow)
    (hrD : r.Duration ≠ 0) (hrH : r.Height ≠ 0)
    (hsD : s.Duration ≠ 0) (hsH : s.Height ≠ 0) :
    ((featureEngineerTrainRow r).Intensity * r.Duration = r.Heart_Rate
      ∧ (featureEngineerTrainRow r).BMI * ((r.Height / 100) ^ 2) = r.Weight)
    ∧ ((featureEngineerTestRow s).Intensity * s.Duration = s.Heart_Rate
      ∧ (featureEngineerTestRow s).BMI * ((s.Height / 100) ^ 2) = s.Weight) := by
  have hr : ((r.Height / 100 : ℝ)) ^ 2 ≠ 0 :=
    pow_ne_zero 2 (div_ne_zero hrH (by norm_num))
  have hs : ((s.Height / 100 : ℝ)) ^ 2 ≠ 0 :=
    pow_ne_zero 2 (div_ne_zero hsH (by norm_num))
  exact ⟨⟨div_mul_cancel₀ _ hrD, div_mul_cancel₀ _ hr⟩,
    ⟨div_mul_cancel₀ _ hsD, div_mul_cancel₀ _ hs⟩⟩

/-- A concrete preprocessed training row used to witness C9. -/
noncomputable def samplePrepTrainRow : PrepTrainRow :=
  { Age := 20, Height := 1, Weight := 50, Duration := 1,
    Heart_Rate := 100, Body_Temp := 40, Calories := 5, Sex_male := 1 }

/-- A concrete preprocessed test row used to witness C9. -/
noncomputable def samplePrepTestRow : PrepTestRow :=
  { Age := 20, Height := 1, Weight := 50, Duration := 1,
    Heart_Rate := 100, Body_Temp := 40, Sex_male := 0 }

/-- Witness for C9 at the sample rows (Duration = Height = 1 on both). -/
theorem fe_divisions_well_defined_witness :
    (samplePrepTrainRow.Duration ≠ 0 ∧ samplePrepTrainRow.Height ≠ 0
      ∧ samplePrepTestRow.Duration ≠ 0 ∧ samplePrepTestRow.Height ≠ 0)
    ∧ (((featureEngineerTrainRow samplePrepTrainRow).Intensity * samplePrepTrainRow.Duration
          = samplePrepTrainRow.Heart_Rate
        ∧ (featureEngineerTrainRow samplePrepTrainRow).BMI
            * ((samplePrepTrainRow.Height / 100) ^ 2) = samplePrepTrainRow.Weight)
      ∧ ((featureEngineerTestRow samplePrepTestRow).Intensity * samplePrepTestRow.Duration
          = samplePrepTestRow.Heart_Rate
        ∧ (featureEngineerTestRow samplePrepTestRow).BMI
            * ((samplePrepTestRow.Height / 100) ^ 2) = samplePrepTestRow.Weight)) :=
  ⟨⟨one_ne_zero, one_ne_zero, one_ne_zero, one_ne_zero⟩,
    fe_divisions_well_defined samplePrepTrainRow samplePrepTestRow
      one_ne_zero one_ne_zero one_ne_zero one_ne_zero⟩

/-! ### Blending stage as a file-writing step (blended_xgb70_lgb30.ipynb)

The notebook asserts `(xgb_df['id'] == lgb_df['id']).all()` and only past
the assertion builds `submission_blended` and writes it to the output path.
The stage is modelled on submission files (lists of (id, Calories) pairs)
together with the prior content `fs` of the output path: on assertion
failure the exception aborts the cell before `to_csv`, so the output state
is returned unchanged and the Bool flag records the failure. -/

/-- The blending stage.  Returns the output-file state after the run and
whether the assertion failed. -/
def blendStage (xgb lgb : List (ℤ × ℚ)) (fs : Option (List (ℤ × ℚ))) :
    Option (List (ℤ × ℚ)) × Bool :=
  if (List.zipWith (fun a b => a.1 == b.1) xgb lgb).all (fun x => x) then
    (some (List.zipWith (fun a b => (a.1, 0.7 * a.2 + 0.3 * b.2)) xgb lgb), false)
  else
    (fs, true)

theorem zipWith_id_beq_all_iff (xgb lgb : List (ℤ × ℚ))
    (hlen : xgb.length = lgb.length) :
    (List.zipWith (fun a b => a.1 == b.1) xgb lgb).all (fun x => x) = true
      ↔ xgb.map Prod.fst = lgb.map Prod.fst := by
  induction xgb generalizing lgb with
  | nil =>
    cases lgb with
    | nil => simp
    | cons b bs => simp at hlen
  | cons a as ih =>
    cases lgb with
    | nil => simp at hlen
    | cons b bs =>
      simp only [List.length_cons, Nat.add_right_cancel_iff] at hlen
      simp [List.zipWith, List.all_cons, ih bs hlen, And.comm]

theorem map_fst_zipWith_blend (xgb lgb : List (ℤ × ℚ))
    (hlen : xgb.length = lgb.length) :
    (List.zipWith (fun a b => (a.1, 0.7 * a.2 + 0.3 * b.2)) xgb lgb).map Prod.fst
      = xgb.map Prod.fst := by
  induction xgb generalizing lgb with
  | nil => simp
  | cons a as ih =>
    cases lgb with
    | nil => simp at hlen
    | cons b bs =>
      simp only [List.length_cons, Nat.add_right_cancel_iff] at hlen
      simp [List.zipWith, ih bs hlen]

/-- C4: given two prediction files with one row per test instance (equal
lengths), the blending stage fails its assertion exactly when the two id
columns differ at some position, and on failure the output-file state is
left unchanged (no blended submission is written). -/
theorem blend_assertion_iff_id_mismatch (xgb lgb : List (ℤ × ℚ))
    (fs : Option (List (ℤ × ℚ))) (hlen : xgb.length = lgb.length) :
    ((blendStage xgb lgb fs).2 = true
      ↔ ∃ i, (xgb.map Prod.fst).get? i ≠ (lgb.map Prod.fst).get? i)
    ∧ ((blendStage xgb lgb fs).2 = true → (blendStage xgb lgb fs).1 = fs) := by
  by_cases h : (List.zipWith (fun a b => a.1 == b.1) xgb lgb).all (fun x => x) = true
  · have hids := (zipWith_id_beq_all_iff xgb lgb hlen).mp h
    constructor
    · simp only [blendStage, h, if_true]
      constructor
      · intro hfalse; exact absurd hfalse (by simp)
      · rintro ⟨i, hi⟩; exact absurd (by rw [hids]) hi
    · intro habs
      simp [blendStage, h] at habs
  · have hids : xgb.map Prod.fst ≠ lgb.map Prod.fst := fun he =>
      h ((zipWith_id_beq_all_iff xgb lgb hlen).mpr he)
    have hne : ∃ i, (xgb.map Prod.fst).get? i ≠ (lgb.map Prod.fst).get? i := by
      by_contra hall
      push_neg at hall
      exact hids (List.ext_get?_iff.mpr hall)
    simp only [blendStage, if_neg h]
    exact ⟨⟨fun _ => hne, fun _ => trivial⟩, fun _ => trivial⟩

/-- Witness for C4 at two one-row files with mismatching ids. -/
theorem blend_assertion_iff_id_mismatch_witness :
    ([((1 : ℤ), (10 : ℚ))].length = [((2 : ℤ), (20 : ℚ))].length)
    ∧ (((blendStage [((1 : ℤ), (10 : ℚ))] [((2 : ℤ), (20 : ℚ))] none).2 = true
        ↔ ∃ i, ([((1 : ℤ), (10 : ℚ))].map Prod.fst).get? i
            ≠ ([((2 : ℤ), (20 : ℚ))].map Prod.fst).get? i)
      ∧ ((blendStage [((1 : ℤ), (10 : ℚ))] [((2 : ℤ), (20 : ℚ))] none).2 = true
        → (blendStage [((1 : ℤ), (10 : ℚ))] [((2 : ℤ), (20 : ℚ))] none).1 = none)) :=
  ⟨rfl, blend_assertion_iff_id_mismatch [(1, 10)] [(2, 20)] none rfl⟩

/-! ### Submission building (baseline_modelling_step3.ipynb, cell 13)

`submission = pd.DataFrame({'id': test_ids, 'Calories': test_preds})` where
`test_preds = np.expm1(xgb.predict(test))` and `test_ids` is the saved id
column of the raw test data. -/

/-- The baseline submission: saved test ids zipped with the expm1-inverted
model outputs on the preprocessed test rows, in row order. -/
noncomputable def baselineSubmission (df : List RawTestRow) (predict : PrepTestRow → ℝ) :
    List (ℤ × ℝ) :=
  List.zip (test_ids df) ((preprocessTest df).map (fun r => expm1 (predict r)))

/-- C5: the id column of the baseline submission is exactly the test set's
id column in order; and whenever the blending stage succeeds on input files
whose first file carries the test ids, the blended submission's id column is
again exactly the test set's id column in order. -/
theorem submission_ids_match_test_ids (df : List RawTestRow) (predict : PrepTestRow → ℝ)
    (xgb lgb : List (ℤ × ℚ)) (fs : Option (List (ℤ × ℚ))) (out : List (ℤ × ℚ))
    (hlen : xgb.length = lgb.length)
    (hxgb : xgb.map Prod.fst = test_ids df)
    (hok : (blendStage xgb lgb fs).2 = false)
    (hout : (blendStage xgb lgb fs).1 = some out) :
    (baselineSubmission df predict).map Prod.fst = test_ids df
    ∧ out.map Prod.fst = test_ids df := by
  constructor
  · apply List.map_fst_zip
    simp [test_ids, preprocessTest]
  · by_cases h : (List.zipWith (fun a b => a.1 == b.1) xgb lgb).all (fun x => x) = true
    · simp only [blendStage, h, if_true, Option.some.injEq] at hout
      rw [← hout, map_fst_zipWith_blend xgb lgb hlen, hxgb]
    · simp [blendStage, h] at hok

/-- A concrete raw test row used to witness C5. -/
noncomputable def sampleRawTestRow : RawTestRow :=
  { id := 7, Sex := Sex.male, Age := 20, Height := 180, Weight := 80,
    Duration := 30, Heart_Rate := 100, Body_Temp := 40 }

/-- Witness for C5 at a one-row test set and matching one-row input files. -/
theorem submission_ids_match_test_ids_witness :
    ([((7 : ℤ), (10 : ℚ))].length = [((7 : ℤ), (20 : ℚ))].length
      ∧ [((7 : ℤ), (10 : ℚ))].map Prod.fst = test_ids [sampleRawTestRow]
      ∧ (blendStage [((7 : ℤ), (10 : ℚ))] [((7 : ℤ), (20 : ℚ))] none).2 = false
      ∧ (blendStage [((7 : ℤ), (10 : ℚ))] [((7 : ℤ), (20 : ℚ))] none).1
          = some [((7 : ℤ), 0.7 * (10 : ℚ) + 0.3 * (20 : ℚ))])
    ∧ ((baselineSubmission [sampleRawTestRow] (fun _ => 0)).map Prod.fst
          = test_ids [sampleRawTestRow]
      ∧ [((7 : ℤ), 0.7 * (10 : ℚ) + 0.3 * (20 : ℚ))].map Prod.fst
          = test_ids [sampleRawTestRow]) :=
  ⟨⟨rfl, rfl, rfl, rfl⟩,
    submission_ids_match_test_ids [sampleRawTestRow] (fun _ => 0)
      [(7, 10)] [(7, 20)] none [((7 : ℤ), 0.7 * (10 : ℚ) + 0.3 * (20 : ℚ))]
      rfl rfl rfl rfl⟩

/-! ### Cross-validated RMSLE scoring (baseline_modelling_step3.ipynb, cell 4)

`rmsle_cv` builds `KFold(n_splits=5, shuffle=True, random_state=42)`,
negates the `neg_mean_squared_log_error` scores of `cross_val_score`, and
returns `np.sqrt(rmsle_scores.mean())`.

KFold with shuffling permutes the row indices 0..n-1 with the seeded RNG
and then cuts the permuted sequence into k consecutive chunks, the first
`n % k` of size `n / k + 1` and the rest of size `n / k`.  The seeded
shuffle is modelled as an explicit permutation `perm` of `range n` (the
Mersenne-Twister stream fixed by random_state=42 is one such permutation). -/

/-- sklearn's `mean_squared_log_error`: the mean over samples of the squared
difference of `log1p`s. -/
noncomputable def mean_squared_log_error (ytrue ypred : List ℝ) : ℝ :=
  (List.zipWith (fun a b => (log1p a - log1p b) ^ 2) ytrue ypred).sum / ytrue.length

/-- KFold fold sizes for `n` samples and `k` splits. -/
def foldSizes (n k : ℕ) : List ℕ :=
  (List.range k).map (fun i => n / k + if i < n % k then 1 else 0)

/-- Cut a list into consecutive chunks of the given sizes. -/
def chunks {α : Type} : List ℕ → List α → List (List α)
  | [], _ => []
  | s :: rest, l => l.take s :: chunks rest (l.drop s)

/-- The `k` held-out index lists of `KFold(n_splits=k, shuffle=True)` on the
shuffled index sequence `perm`. -/
def kfold_splits (perm : List ℕ) (k : ℕ) : List (List ℕ) :=
  chunks (foldSizes perm.length k) perm

/-- A model in the sense of `cross_val_score`: fitting on labelled rows
yields a predictor. -/
def Model (α : Type) : Type := List (α × ℝ) → α → ℝ

/-- Row selection `X[idx]`. -/
def selectRows {α : Type} (X : List α) (idx : List ℕ) : List α :=
  idx.filterMap (fun i => X.get? i)

/-- One fit of `cross_val_score`: train on the complement of the held-out
fold, return the held-out fold's mean squared logarithmic error. -/
noncomputable def foldMSLE {α : Type} (model : Model α) (X : List α) (y : List ℝ)
    (testIdx : List ℕ) : ℝ :=
  let trainIdx := (List.range X.length).filter (fun i => !testIdx.contains i)
  let predictor := model (List.zip (selectRows X trainIdx) (selectRows y trainIdx))
  mean_squared_log_error (selectRows y testIdx) ((selectRows X testIdx).map predictor)

/-- `cross_val_score(model, X, y, scoring='neg_mean_squared_log_error', cv=kf)`:
the negated per-fold MSLE scores, one per fold of the 5-fold split. -/
noncomputable def cross_val_score_neg_msle {α : Type} (model : Model α) (X : List α)
    (y : List ℝ) (perm : List ℕ) : List ℝ :=
  (kfold_splits perm 5).map (fun testIdx => -(foldMSLE model X y testIdx))

/-- `rmsle_cv` from the notebook: negate the sklearn scores back to positive
MSLEs and return `np.sqrt` of their mean. -/
noncomputable def rmsle_cv {α : Type} (model : Model α) (X : List α) (y : List ℝ)
    (perm : List ℕ) : ℝ :=
  let rmsle_scores := (cross_val_score_neg_msle model X y perm).map (fun s => -s)
  Real.sqrt (rmsle_scores.sum / rmsle_scores.length)

theorem foldSizes_length (n k : ℕ) : (foldSizes n k).length = k := by
  simp [foldSizes]

theorem foldSizes_sum (n k : ℕ) (hk : 0 < k) : (foldSizes n k).sum = n := by
  have h1 : ∀ m, ((List.range m).map (fun i => n / k + if i < n % k then 1 else 0)).sum
      = m * (n / k) + min (n % k) m := by
    intro m
    induction m with
    | zero => simp
    | succ m ih =>
      rw [List.range_succ, List.map_append, List.sum_append, ih]
      simp only [List.map_cons, List.map_nil, List.sum_cons, List.sum_nil, Nat.succ_mul]
      rcases lt_or_ge m (n % k) with h | h
      · rw [if_pos h, min_eq_right (Nat.le_of_lt h), min_eq_right h]
        omega
      · rw [if_neg (not_lt.mpr h), min_eq_left h, min_eq_left (h.trans (Nat.le_succ m))]
        omega
  have h2 : n % k < k := Nat.mod_lt n hk
  rw [foldSizes, h1 k, min_eq_left (Nat.le_of_lt h2)]
  exact Nat.div_add_mod n k

theorem chunks_length {α : Type} (sizes : List ℕ) (l : List α) :
    (chunks sizes l).length = sizes.length := by
  induction sizes generalizing l with
  | nil => rfl
  | cons s rest ih => simp [chunks, ih]

theorem chunks_flatten {α : Type} (sizes : List ℕ) (l : List α)
    (h : sizes.sum = l.length) : (chunks sizes l).flatten = l := by
  induction sizes generalizing l with
  | nil =>
    simp only [List.sum_nil] at h
    rw [chunks, List.flatten_nil, List.length_eq_zero.mp h.symm]
  | cons s rest ih =>
    simp only [List.sum_cons] at h
    rw [chunks, List.flatten_cons, ih (l.drop s) (by rw [List.length_drop]; omega),
      List.take_append_drop]

/-- C1: `rmsle_cv` splits the rows into exactly 5 pairwise-disjoint folds
that jointly cover every row index once (for any seeded-shuffle permutation
of the indices, in particular the one fixed by random_state=42), scores each
held-out fold by its mean squared logarithmic error, and returns the square
root of the mean of the 5 per-fold MSLEs — the average is taken before the
square root. -/
theorem rmsle_cv_partition_and_formula {α : Type} (model : Model α) (X : List α)
    (y : List ℝ) (perm : List ℕ) (hperm : perm.Perm (List.range X.length)) :
    (kfold_splits perm 5).length = 5
    ∧ (kfold_splits perm 5).Pairwise List.Disjoint
    ∧ (kfold_splits perm 5).flatten.Perm (List.range X.length)
    ∧ rmsle_cv model X y perm
        = Real.sqrt (((kfold_splits perm 5).map (foldMSLE model X y)).sum / 5) := by
  have hflat : (kfold_splits perm 5).flatten = perm :=
    chunks_flatten _ _ (foldSizes_sum perm.length 5 (by norm_num))
  have hnodup : perm.Nodup := hperm.nodup_iff.mpr (List.nodup_range _)
  have hlen : (kfold_splits perm 5).length = 5 := by
    rw [kfold_splits, chunks_length, foldSizes_length]
  refine ⟨hlen, ?_, ?_, ?_⟩
  · have hfn : (kfold_splits perm 5).flatten.Nodup := by
      rw [hflat]
      exact hnodup
    exact (List.nodup_flatten.mp hfn).2
  · rw [hflat]
    exact hperm
  · rw [rmsle_cv, cross_val_score_neg_msle]
    rw [List.map_map]
    have hcomp : ((fun s : ℝ => -s) ∘ fun testIdx => -(foldMSLE model X y testIdx))
        = foldMSLE model X y := by
      funext t
      simp
    rw [hcomp, List.length_map, hlen]
    norm_num

/-- Witness for C1 on five rows with the identity shuffle and a constant
model. -/
theorem rmsle_cv_partition_and_formula_witness :
    (([0, 1, 2, 3, 4] : List ℕ).Perm (List.range ([(10 : ℚ), 20, 30, 40, 50]).length))
    ∧ ((kfold_splits [0, 1, 2, 3, 4] 5).length = 5
      ∧ (kfold_splits [0, 1, 2, 3, 4] 5).Pairwise List.Disjoint
      ∧ (kfold_splits [0, 1, 2, 3, 4] 5).flatten.Perm
          (List.range ([(10 : ℚ), 20, 30, 40, 50]).length)
      ∧ rmsle_cv (fun _ _ => 1) [(10 : ℚ), 20, 30, 40, 50] [1, 2, 3, 4, 5] [0, 1, 2, 3, 4]
          = Real.sqrt
              (((kfold_splits [0, 1, 2, 3, 4] 5).map
                  (foldMSLE (fun _ _ => 1) [(10 : ℚ), 20, 30, 40, 50] [1, 2, 3, 4, 5])).sum
                / 5)) :=
  ⟨List.Perm.refl _,
    rmsle_cv_partition_and_formula (fun _ _ => 1) [(10 : ℚ), 20, 30, 40, 50]
      [1, 2, 3, 4, 5] [0, 1, 2, 3, 4] (List.Perm.refl _)⟩

end CaloriePipeline
